import Mathlib

/-!
Verification of the blezero acquisition and buffering engine
(`src/lib/blezero.py`) against its specification.

The embedding is a shallow one:
* Python floats are modelled as `ℚ` (all decoded values are small
  fixed-point quantities, so rational arithmetic coincides with the
  intended real-number semantics of the code on the inputs considered);
* `bytes` is `List (Fin 256)`;
* code that can raise returns `Except String`, the string naming the
  Python exception class raised;
* the BLE transport (scan results, connection success, characteristic
  resolution and read outcomes) is an explicit environment value.
-/

namespace Blezero

/-- Service id `org.bluetooth.service.environmental_sensing` (`0x181A`). -/
def ENVIRONMENTAL_SENSING : Nat := 0x181A

/-- Characteristic id `org.bluetooth.characteristic.temperature`. -/
def TEMPERATURE : Nat := 0x2A6E

/-- characteristic id for pressure. -/
def PRESSURE : Nat := 0x2A6D

/-- characteristic id for humidity. -/
def HUMIDITY : Nat := 0x2A6F

/-- characteristic id used for light (the source notes it is not Lux). -/
def IRRADIANCE : Nat := 0x2A77

/-- Model of `struct.unpack("<h", data)[0]`: exactly two bytes,
little-endian, twos-complement signed 16-bit.  Any other length raises
`struct.error`. -/
def unpack_h : List (Fin 256) → Except String Int
  | [b0, b1] =>
    let u : Nat := b0.val + 256 * b1.val
    .ok (if u < 32768 then (u : Int) else (u : Int) - 65536)
  | _ => .error "struct.error"

/-- Decoder `_decode_temperature`: signed 16-bit / 100.0. -/
def decode_temperature (data : List (Fin 256)) : Except String ℚ := do
  let v ← unpack_h data
  pure ((v : ℚ) / 100)

/-- Decoder `_decode_light`: signed 16-bit / 10.0 (0.1 W/m2). -/
def decode_light (data : List (Fin 256)) : Except String ℚ := do
  let v ← unpack_h data
  pure ((v : ℚ) / 10)

/-- Decoder `_decode_pressure`: signed 16-bit / 10.0. -/
def decode_pressure (data : List (Fin 256)) : Except String ℚ := do
  let v ← unpack_h data
  pure ((v : ℚ) / 10)

/-- Decoder `_decode_humidity`: signed 16-bit / 100.0. -/
def decode_humidity (data : List (Fin 256)) : Except String ℚ := do
  let v ← unpack_h data
  pure ((v : ℚ) / 100)

/-- The `DECODERS` dict, as a lookup function on the characteristic id. -/
def DECODERS (uuid : Nat) : Option (List (Fin 256) → Except String ℚ) :=
  if uuid = TEMPERATURE then some decode_temperature
  else if uuid = PRESSURE then some decode_pressure
  else if uuid = HUMIDITY then some decode_humidity
  else if uuid = IRRADIANCE then some decode_light
  else none

/-- Python `round` (round half to even) on a rational. -/
def pyRound (x : ℚ) : ℤ :=
  if x - ⌊x⌋ < 1 / 2 then ⌊x⌋
  else if 1 / 2 < x - ⌊x⌋ then ⌊x⌋ + 1
  else if ⌊x⌋ % 2 = 0 then ⌊x⌋ else ⌊x⌋ + 1

/-- Model of `int(round(x, -1))`: round to the nearest multiple of ten
(half-to-even); the `int` conversion is exact since the result is an
integer already. -/
def round10 (x : ℚ) : ℤ := 10 * pyRound (x / 10)

/-- The state of one `Sensor` (one measurement channel).  `decode` is not
stored; it is recovered from `uuid` through `DECODERS` exactly as
`__init__` fetches it. -/
structure Sensor where
  uuid : Nat
  length0 : Nat
  dlog : List (Option ℚ)
  dptr : Nat
  lower : ℚ
  upper : ℚ
  autorange : Bool
deriving DecidableEq, Repr

/-- Constructor `Sensor.__init__(caption, samples, uuid, drange)`; the caption plays
no role in any claim and is omitted. -/
def mkSensor (samples : Nat) (uuid : Nat) (drange : Option (ℚ × ℚ)) : Sensor :=
  match drange with
  | none =>
    { uuid := uuid, length0 := samples, dlog := List.replicate samples none,
      dptr := 0, lower := 0, upper := 1, autorange := true }
  | some (lo, hi) =>
    { uuid := uuid, length0 := samples, dlog := List.replicate samples none,
      dptr := 0, lower := lo, upper := hi, autorange := false }

/-- The values of the populated slots (the generator
`(x for x in self.dlog if x is not None)`). -/
def presentVals (l : List (Option ℚ)) : List ℚ := l.filterMap id

/-- Python `min(list, default=d)`. -/
def pyMin (l : List ℚ) (d : ℚ) : ℚ :=
  match l with
  | [] => d
  | x :: xs => xs.foldl min x

/-- Python `max(list, default=d)`. -/
def pyMax (l : List ℚ) (d : ℚ) : ℚ :=
  match l with
  | [] => d
  | x :: xs => xs.foldl max x

/-- The in-place left shift `for i in range(1, L): dlog[i-1] = dlog[i]`:
every element moves one slot toward the front, the last slot keeps its
(now duplicated) value. -/
def shiftLeft : List α → List α
  | [] => []
  | [x] => [x]
  | _ :: y :: rest => y :: shiftLeft (y :: rest)

/-- The auto-ranging half of `Sensor.update` (lines 74-78): recompute
`lower`/`upper` from the currently present values and the new value,
rounding with `int(round(…, -1))`. -/
def Sensor.rangeAdjust (s : Sensor) (value : ℚ) : Sensor :=
  if s.autorange then
    { s with
      lower := ((round10 (min (pyMin (presentVals s.dlog) 0) (value / 2)) : ℤ) : ℚ),
      upper := ((round10 (max (pyMax (presentVals s.dlog) 1) (value * 2)) : ℤ) : ℚ) }
  else s

/-- The log-append half of `Sensor.update` (lines 83-89): write at
`dptr`; if `dptr == _length - 1` shift the whole log left (keeping
`dptr` where it is), otherwise advance `dptr`. -/
def Sensor.logAppend (s : Sensor) (value : ℚ) : Sensor :=
  if s.dptr = s.length0 - 1 then
    { s with dlog := shiftLeft (s.dlog.set s.dptr (some value)) }
  else
    { s with dlog := s.dlog.set s.dptr (some value), dptr := s.dptr + 1 }

/-- Body of `Sensor.update` after the characteristic read and decode: range
adjustment followed by the log append. -/
def Sensor.updateVal (s : Sensor) (value : ℚ) : Sensor :=
  (s.rangeAdjust value).logAppend value

/-- Model of `Sensor.update(characteristic)` once the raw bytes are in hand:
decode (possibly raising), then mutate the state. -/
def Sensor.record (s : Sensor) (data : List (Fin 256)) : Except String Sensor := do
  let f := (DECODERS s.uuid).getD (fun _ => .error "KeyError")
  let v ← f data
  pure (s.updateVal v)

/-- Index of the first `None` in the log (`list.index(None)` wrapped in
`try`). -/
def firstNoneIdx : List (Option ℚ) → Option Nat
  | [] => none
  | none :: _ => some 0
  | some _ :: xs => (firstNoneIdx xs).map (· + 1)

/-- The `length` property: index of the first unpopulated slot, or
`_length` when every slot is populated. -/
def Sensor.current_length (s : Sensor) : Nat :=
  match firstNoneIdx s.dlog with
  | some i => i
  | none => s.length0

/-- What `min_max_avg` returns: the bare scalar `0`, or the
`(average, maximum, minimum)` tuple. -/
inductive StatResult where
  | scalar (v : ℚ)
  | triple (avg mx mn : ℚ)
deriving DecidableEq, Repr

/-- Turn a prefix of the log into plain values; `none` means a `None`
entered a numeric comparison, which raises `TypeError` in the caller. -/
def seqOpt : List (Option ℚ) → Option (List ℚ)
  | [] => some []
  | none :: _ => none
  | some x :: xs => (seqOpt xs).map (x :: ·)

/-- The accumulation loop of `min_max_avg` over `dlog[0:dptr]`, carrying
`(v, max_reading, min_reading)`. -/
def mmaLoop : List ℚ → ℚ → ℚ → ℚ → ℚ × ℚ × ℚ
  | [], v, mx, mn => (v, mx, mn)
  | x :: xs, v, mx, mn =>
    if mx < x then mmaLoop xs (v + x) x mn
    else if x < mn then mmaLoop xs (v + x) mx x
    else mmaLoop xs (v + x) mx mn

/-- Model of `Sensor.min_max_avg`: returns the scalar `0` when `dptr == 0`,
otherwise folds over the first `dptr` slots with `max_reading`
initialised to `0` and `min_reading` initialised to `dlog[0]`. -/
def Sensor.min_max_avg (s : Sensor) : Except String StatResult :=
  if s.dptr = 0 then .ok (.scalar 0)
  else if s.dlog.length < s.dptr then .error "IndexError"
  else
    match seqOpt (s.dlog.take s.dptr) with
    | none => .error "TypeError"
    | some [] => .error "IndexError"
    | some (x :: xs) =>
      let r := mmaLoop (x :: xs) 0 0 x
      .ok (.triple (r.1 / (s.dptr : ℚ)) r.2.1 r.2.2)

/-- Model of `Sensor.get_scaled(index, scale)`: clamp into `[lower, upper]`,
shift by `lower`, divide by the width (raising `ZeroDivisionError` when
the width is zero, as Python division does), multiply by `scale`. -/
def Sensor.get_scaled (s : Sensor) (index : Nat) (scale : ℚ) : Except String ℚ :=
  match s.dlog[index]? with
  | none => .error "IndexError"
  | some none => .error "ValueError"
  | some (some value0) =>
    let value1 := min s.upper value0
    let value2 := max s.lower value1
    let value3 := value2 - s.lower
    if s.upper - s.lower = 0 then .error "ZeroDivisionError"
    else .ok (value3 / (s.upper - s.lower) * scale)

/-- One advertisement seen during the scan. -/
structure Advert where
  name : String
  services : List Nat
  addr : Nat
deriving DecidableEq

/-- Model of `Device.find`: keep a cached handle if there is one, otherwise take
the first scan result whose name matches and whose advertised services
contain the environmental-sensing service; `None` when nothing matches. -/
def Device.find (displayName : String) (serviceId : Nat) (cached : Option Nat)
    (scan : List Advert) : Option Nat :=
  match cached with
  | some d => some d
  | none =>
    match scan.find? (fun r => r.name == displayName && r.services.contains serviceId) with
    | some r => some r.addr
    | none => none

/-- Outcome of handling one configured sensor inside the read loop:
characteristic resolution timed out, the read returned bytes, or the
read itself timed out. -/
inductive CharOutcome where
  | resolveTimeout
  | readData (data : List (Fin 256))
  | readTimeout
deriving DecidableEq

/-- How one call of `Device.update` terminates: a normal `return`, or an
uncaught exception propagating to the caller. -/
inductive Outcome where
  | ret
  | exc (name : String)
deriving DecidableEq

/-- The transport environment for one refresh cycle. -/
structure Env where
  scan : List Advert
  connectOk : Bool
  serviceFound : Bool
  chars : List CharOutcome
deriving DecidableEq

/-- Observable result of one refresh cycle: final sensor states, how
many connections were acquired and released, and how the call ended. -/
structure UpdResult where
  sensors : List Sensor
  acquired : Nat
  released : Nat
  outcome : Outcome
deriving DecidableEq

/-- The `for sensor in self.sensors` loop inside `async with connection`:
a characteristic-resolution timeout is caught and `continue`s; a read
timeout or a decode exception propagates, leaving this and all later
sensors untouched (the `async with` block still releases on the way
out). -/
def chanLoop : List (Sensor × CharOutcome) → List Sensor × Outcome
  | [] => ([], .ret)
  | (s, .resolveTimeout) :: rest =>
    let r := chanLoop rest
    (s :: r.1, r.2)
  | (s, .readTimeout) :: rest => (s :: rest.map Prod.fst, .exc "TimeoutError")
  | (s, .readData d) :: rest =>
    match s.record d with
    | .error e => (s :: rest.map Prod.fst, .exc e)
    | .ok s2 =>
      let r := chanLoop rest
      (s2 :: r.1, r.2)

/-- Model of `Device.update` for one cycle.  `find` returning `None` makes
`device.connect()` raise `AttributeError` (uncaught).  A connect timeout
is caught and returns.  A missing service returns *before* the
`async with connection` block, so the connection is not released on that
path.  Otherwise the channel loop runs inside the scoped connection,
which is released exactly once however the loop exits. -/
def Device.update (displayName : String) (cached : Option Nat)
    (sensors : List Sensor) (env : Env) : UpdResult :=
  match Device.find displayName ENVIRONMENTAL_SENSING cached env.scan with
  | none => { sensors := sensors, acquired := 0, released := 0, outcome := .exc "AttributeError" }
  | some _ =>
    if env.connectOk = false then
      { sensors := sensors, acquired := 0, released := 0, outcome := .ret }
    else if env.serviceFound = false then
      { sensors := sensors, acquired := 1, released := 0, outcome := .ret }
    else
      let r := chanLoop (sensors.zip env.chars)
      { sensors := r.1, acquired := 1, released := 1, outcome := r.2 }

/-- The observable log after the writes `vs` into a fresh channel of
capacity `L`: all values oldest-first padded with absent slots while
fewer than `L` writes happened; from the `L`-th write on, the most
recent `L - 1` values oldest-first with the newest value duplicated in
the final slot. -/
def logAfter (L : Nat) (vs : List ℚ) : List (Option ℚ) :=
  if vs.length < L then vs.map some ++ List.replicate (L - vs.length) none
  else ((vs.drop (vs.length - L + 1)) ++ vs.drop (vs.length - 1)).map some

/-- Does the read loop survive this channel without an uncaught
exception?  A resolution timeout is caught (`continue`); read bytes that
decode are fine; a read timeout or a decode failure propagates. -/
def chanOk (s : Sensor) : CharOutcome → Bool
  | .resolveTimeout => true
  | .readTimeout => false
  | .readData d =>
    match s.record d with
    | .ok _ => true
    | .error _ => false

/-- Per-channel effect when the loop survives the channel: skipped on a
resolution timeout, otherwise the recorded state. -/
def chanStep (s : Sensor) : CharOutcome → Sensor
  | .resolveTimeout => s
  | .readTimeout => s
  | .readData d =>
    match s.record d with
    | .ok s2 => s2
    | .error _ => s

/-- Example state used to instantiate hypotheses of the general theorems:
a populated one-slot channel with the fixed display range [0, 10]. -/
def sampleA : Sensor :=
  { uuid := TEMPERATURE, length0 := 1, dlog := [some 5], dptr := 0,
    lower := 0, upper := 10, autorange := false }

/-- Like `sampleA` with a larger stored value. -/
def sampleB : Sensor :=
  { uuid := TEMPERATURE, length0 := 1, dlog := [some 7], dptr := 0,
    lower := 0, upper := 10, autorange := false }

/-- A populated channel whose display range has collapsed to a point. -/
def sampleFlat : Sensor :=
  { uuid := TEMPERATURE, length0 := 1, dlog := [some 5], dptr := 0,
    lower := 3, upper := 3, autorange := false }

deriving instance DecidableEq for Except

/-! ## Auxiliary lemmas about the list manipulations of the code -/

theorem shiftLeft_eq (l : List α) : shiftLeft l = l.drop 1 ++ l.drop (l.length - 1) := by
  induction l with
  | nil => rfl
  | cons x xs ih =>
    cases xs with
    | nil => rfl
    | cons y rest =>
      have h2 : shiftLeft (x :: y :: rest) = y :: shiftLeft (y :: rest) := rfl
      rw [h2, ih]
      simp [List.drop_succ_cons]

theorem set_append_len (as bs : List α) (x : α) :
    (as ++ bs).set as.length x = as ++ bs.set 0 x := by
  induction as with
  | nil => simp
  | cons a t ih =>
    show a :: ((t ++ bs).set t.length x) = a :: (t ++ bs.set 0 x)
    rw [ih]

theorem set_zero_len_one (l : List α) (x : α) (h : l.length = 1) : l.set 0 x = [x] := by
  cases l with
  | nil => simp at h
  | cons a t =>
    cases t with
    | nil => rfl
    | cons b u => simp at h

theorem firstNoneIdx_map_some (vs : List ℚ) : firstNoneIdx (vs.map some) = none := by
  induction vs with
  | nil => rfl
  | cons v t ih => simp [firstNoneIdx, ih]

theorem firstNoneIdx_append_none (vs : List ℚ) (rest : List (Option ℚ)) :
    firstNoneIdx (vs.map some ++ none :: rest) = some vs.length := by
  induction vs with
  | nil => rfl
  | cons v t ih => simp [firstNoneIdx, ih]

theorem presentVals_replicate_none (n : Nat) :
    presentVals (List.replicate n none) = [] := by
  simp [presentVals]

theorem drop_concat_len (l : List α) (x : α) : (l ++ [x]).drop l.length = [x] := by
  rw [List.drop_append_eq_append_drop, List.drop_length, Nat.sub_self]
  rfl

theorem shiftLeft_map_some (u : List ℚ) :
    shiftLeft (u.map some) = (u.drop 1 ++ u.drop (u.length - 1)).map some := by
  rw [shiftLeft_eq, List.length_map, List.map_append, List.map_drop, List.map_drop]

theorem logAppend_dptr_eq (s : Sensor) (v : ℚ) (h : s.dptr = s.length0 - 1) :
    (s.logAppend v).dptr = s.dptr := by
  unfold Sensor.logAppend
  rw [if_pos h]

theorem logAppend_dptr_ne (s : Sensor) (v : ℚ) (h : ¬ s.dptr = s.length0 - 1) :
    (s.logAppend v).dptr = s.dptr + 1 := by
  unfold Sensor.logAppend
  rw [if_neg h]

theorem logAppend_dlog_eq (s : Sensor) (v : ℚ) (h : s.dptr = s.length0 - 1) :
    (s.logAppend v).dlog = shiftLeft (s.dlog.set s.dptr (some v)) := by
  unfold Sensor.logAppend
  rw [if_pos h]

theorem logAppend_dlog_ne (s : Sensor) (v : ℚ) (h : ¬ s.dptr = s.length0 - 1) :
    (s.logAppend v).dlog = s.dlog.set s.dptr (some v) := by
  unfold Sensor.logAppend
  rw [if_neg h]

theorem logAppend_lower (s : Sensor) (v : ℚ) : (s.logAppend v).lower = s.lower := by
  unfold Sensor.logAppend
  split <;> rfl

theorem logAppend_upper (s : Sensor) (v : ℚ) : (s.logAppend v).upper = s.upper := by
  unfold Sensor.logAppend
  split <;> rfl

theorem logAppend_length0 (s : Sensor) (v : ℚ) : (s.logAppend v).length0 = s.length0 := by
  unfold Sensor.logAppend
  split <;> rfl

theorem rangeAdjust_dlog (s : Sensor) (v : ℚ) : (s.rangeAdjust v).dlog = s.dlog := by
  unfold Sensor.rangeAdjust
  split <;> rfl

theorem rangeAdjust_dptr (s : Sensor) (v : ℚ) : (s.rangeAdjust v).dptr = s.dptr := by
  unfold Sensor.rangeAdjust
  split <;> rfl

theorem rangeAdjust_length0 (s : Sensor) (v : ℚ) : (s.rangeAdjust v).length0 = s.length0 := by
  unfold Sensor.rangeAdjust
  split <;> rfl

theorem rangeAdjust_autorange (s : Sensor) (v : ℚ) :
    (s.rangeAdjust v).autorange = s.autorange := by
  unfold Sensor.rangeAdjust
  split <;> rfl

/-! ## C9 -/

/-- C9: each registered decoder interprets its input as an exactly-2-byte
little-endian signed 16-bit integer divided by its fixed scale factor
(temperature and humidity by 100, pressure and irradiance by 10); the raw
value -500 (bytes `0x0C 0xFE`) decodes to -5.00 for temperature and
humidity and -50.0 for pressure and irradiance, and any input that is not
exactly two bytes raises `struct.error`. -/
theorem C9_decoder_registry :
    DECODERS TEMPERATURE = some decode_temperature ∧
    DECODERS PRESSURE = some decode_pressure ∧
    DECODERS HUMIDITY = some decode_humidity ∧
    DECODERS IRRADIANCE = some decode_light ∧
    decode_temperature [12, 254] = .ok (-5) ∧
    decode_humidity [12, 254] = .ok (-5) ∧
    decode_pressure [12, 254] = .ok (-50) ∧
    decode_light [12, 254] = .ok (-50) ∧
    ∀ data : List (Fin 256), data.length ≠ 2 → unpack_h data = .error "struct.error" := by
  have hu : unpack_h [12, 254] = .ok (-500) := by
    show Except.ok (if (12 + 256 * 254 : Nat) < 32768 then ((12 + 256 * 254 : Nat) : Int)
      else ((12 + 256 * 254 : Nat) : Int) - 65536) = .ok (-500)
    norm_num
  refine ⟨rfl, rfl, rfl, rfl, ?_, ?_, ?_, ?_, ?_⟩
  · simp only [decode_temperature, hu, bind, Except.bind, pure, Except.pure]
    norm_num
  · simp only [decode_humidity, hu, bind, Except.bind, pure, Except.pure]
    norm_num
  · simp only [decode_pressure, hu, bind, Except.bind, pure, Except.pure]
    norm_num
  · simp only [decode_light, hu, bind, Except.bind, pure, Except.pure]
    norm_num
  · intro data h
    match data with
    | [] => rfl
    | [_] => rfl
    | [_, _] => exact absurd rfl h
    | _ :: _ :: _ :: _ => rfl

/-- C9 witness: the length guard applied at a concrete non-2-byte input. -/
theorem C9_decoder_registry_witness : unpack_h [] = .error "struct.error" :=
  C9_decoder_registry.2.2.2.2.2.2.2.2 [] (by decide)

/-! ## C7 -/

/-- C7 (code bug): `min_max_avg` on a buffer that has never been written
returns the bare scalar `0`, which is not the `(0, 0, 0)` triple the spec
promises (the in-file caller `draw_graph` unpacks three values from it). -/
theorem C7_stats_scalar_on_empty :
    (∀ (samples uuid : ℕ) (dr : Option (ℚ × ℚ)),
        (mkSensor samples uuid dr).min_max_avg = .ok (.scalar 0)) ∧
    (Except.ok (StatResult.scalar 0) : Except String StatResult) ≠ .ok (.triple 0 0 0) := by
  refine ⟨fun samples uuid dr => ?_, by decide⟩
  rcases dr with _ | ⟨lo, hi⟩ <;> rfl

/-! ## C6 -/

/-- C6 (code bug): with a single recorded value -5, `min_max_avg` returns
maximum `0` although the only populated value is `-5`: `max_reading` is
initialised to `0` instead of to a populated value, so the returned
maximum is not attained by any populated value. -/
theorem C6_stats_max_not_attained :
    ((mkSensor 2 TEMPERATURE (some (20, 40))).updateVal (-5)).min_max_avg
        = .ok (.triple (-5) 0 (-5)) ∧
    presentVals ((mkSensor 2 TEMPERATURE (some (20, 40))).updateVal (-5)).dlog = [-5] := by
  constructor
  · show (if (1 : Nat) = 0 then _ else _) = _
    norm_num [Sensor.min_max_avg, mkSensor, Sensor.updateVal, Sensor.rangeAdjust,
      Sensor.logAppend, seqOpt, mmaLoop]
  · rfl

/-! ## C2 -/

/-- C2 (code bug): when the environmental-sensing service is absent, the
cycle returns from `Device.update` before the `async with connection`
block is entered, so the live connection is never released (released = 0
although acquired = 1). -/
theorem C2_service_missing_leaks_connection :
    Device.update "enviro-indoor" (some 7) [mkSensor 2 TEMPERATURE (some (20, 40))]
        { scan := [], connectOk := true, serviceFound := false,
          chars := [.readData [200, 0]] } =
      { sensors := [mkSensor 2 TEMPERATURE (some (20, 40))],
        acquired := 1, released := 0, outcome := .ret } := by
  rfl

/-! ## C4 -/

/-- C4 counterexample: with a scan containing no advertisement that has
both the right name and the environmental-sensing service, the cycle does
not end with a reported DeviceNotFound event: `device.connect()` is
called on `None` and the cycle ends with an uncaught `AttributeError`. -/
theorem C4_counterexample :
    (Device.update "enviro-indoor" none [mkSensor 2 TEMPERATURE (some (20, 40))]
        { scan := [{ name := "enviro-weather", services := [0x181A], addr := 3 },
                   { name := "enviro-indoor", services := [0x1800], addr := 4 }],
          connectOk := true, serviceFound := true, chars := [] }).outcome
      = .exc "AttributeError" ∧
    Outcome.exc "AttributeError" ≠ .ret := by
  exact ⟨rfl, by decide⟩

/-- C4 (amended): if no scan result matches both the display name and the
environmental-sensing service, the cycle mutates no channel buffer,
acquires and releases no connection and runs no further protocol step,
but it ends with an uncaught `AttributeError` instead of a reported
DeviceNotFound event. -/
theorem C4_no_match_no_mutation (displayName : String) (ss : List Sensor) (env : Env)
    (h : ∀ r ∈ env.scan, ¬(r.name = displayName ∧ ENVIRONMENTAL_SENSING ∈ r.services)) :
    Device.update displayName none ss env =
      { sensors := ss, acquired := 0, released := 0, outcome := .exc "AttributeError" } := by
  have hf : Device.find displayName ENVIRONMENTAL_SENSING none env.scan = none := by
    unfold Device.find
    have : env.scan.find?
        (fun r => r.name == displayName && r.services.contains ENVIRONMENTAL_SENSING) = none := by
      rw [List.find?_eq_none]
      intro r hr
      have := h r hr
      simp only [Bool.and_eq_true, beq_iff_eq, List.elem_eq_mem, decide_eq_true_eq]
      intro hc
      exact this hc
    rw [this]
  unfold Device.update
  rw [hf]

/-- C4 witness: the amended statement applied to an empty scan. -/
theorem C4_no_match_no_mutation_witness :
    Device.update "enviro-indoor" none []
        { scan := [], connectOk := true, serviceFound := true, chars := [] } =
      { sensors := [], acquired := 0, released := 0, outcome := .exc "AttributeError" } :=
  C4_no_match_no_mutation "enviro-indoor" [] _ (by simp)

/-! ## C1 counterexample -/

/-- C1 counterexample: a channel of capacity 2 receiving the writes
1, 2, 3 ends with log `[3, 3]`, not the most recent two values `[2, 3]`
in chronological order: the shift already runs on the write that fills
the buffer and duplicates the newest value in the final slot. -/
theorem C1_counterexample :
    (([1, 2, 3] : List ℚ).foldl Sensor.updateVal
        (mkSensor 2 TEMPERATURE (some (20, 40)))).dlog = [some 3, some 3] ∧
    (([1, 2, 3] : List ℚ).foldl Sensor.updateVal
        (mkSensor 2 TEMPERATURE (some (20, 40)))).dlog ≠ [some 2, some 3] := by
  exact ⟨rfl, by decide⟩

/-! ## Rounding lemmas -/

theorem pyRound_ge_floor (x : ℚ) : ⌊x⌋ ≤ pyRound x := by
  unfold pyRound
  split_ifs <;> omega

theorem pyRound_le_succ (x : ℚ) : pyRound x ≤ ⌊x⌋ + 1 := by
  unfold pyRound
  split_ifs <;> omega

theorem pyRound_mono {x y : ℚ} (h : x ≤ y) : pyRound x ≤ pyRound y := by
  rcases lt_trichotomy (⌊x⌋) (⌊y⌋) with hf | hf | hf
  · calc pyRound x ≤ ⌊x⌋ + 1 := pyRound_le_succ x
      _ ≤ ⌊y⌋ := by omega
      _ ≤ pyRound y := pyRound_ge_floor y
  · unfold pyRound
    rw [hf]
    split_ifs <;> first | omega | linarith
  · exact absurd (Int.floor_le_floor h) (by omega)

theorem round10_mono {x y : ℚ} (h : x ≤ y) : round10 x ≤ round10 y := by
  have h10 : x / 10 ≤ y / 10 := by linarith
  have := pyRound_mono h10
  unfold round10
  omega

theorem foldl_min_le (xs : List ℚ) (x : ℚ) : xs.foldl min x ≤ x := by
  induction xs generalizing x with
  | nil => exact le_rfl
  | cons y t ih => exact le_trans (ih (min x y)) (min_le_left x y)

theorem le_foldl_max (xs : List ℚ) (x : ℚ) : x ≤ xs.foldl max x := by
  induction xs generalizing x with
  | nil => exact le_rfl
  | cons y t ih => exact le_trans (le_max_left x y) (ih (max x y))

theorem pyMin_le_pyMax (l : List ℚ) : pyMin l 0 ≤ pyMax l 1 := by
  cases l with
  | nil => norm_num [pyMin, pyMax]
  | cons x xs => exact le_trans (foldl_min_le xs x) (le_foldl_max xs x)

theorem rangeAdjust_lower_auto (s : Sensor) (v : ℚ) (h : s.autorange = true) :
    (s.rangeAdjust v).lower
      = ((round10 (min (pyMin (presentVals s.dlog) 0) (v / 2)) : ℤ) : ℚ) := by
  unfold Sensor.rangeAdjust
  rw [if_pos h]

theorem rangeAdjust_upper_auto (s : Sensor) (v : ℚ) (h : s.autorange = true) :
    (s.rangeAdjust v).upper
      = ((round10 (max (pyMax (presentVals s.dlog) 1) (v * 2)) : ℤ) : ℚ) := by
  unfold Sensor.rangeAdjust
  rw [if_pos h]

/-- Evaluation helper: one write of the decoded value 2 into a fresh
3-slot autorange channel drives `lower` to 0. -/
theorem updateVal_two_lower : ((mkSensor 3 TEMPERATURE none).updateVal 2).lower = 0 := by
  rw [Sensor.updateVal, logAppend_lower]
  show ((round10 (min (pyMin (presentVals (List.replicate 3 none)) 0) (2 / 2)) : ℤ) : ℚ) = 0
  rw [presentVals_replicate_none]
  norm_num [pyMin, round10, pyRound]

/-- Evaluation helper: the same write drives `upper` to 0 as well, since
`round(4, -1) = 0`. -/
theorem updateVal_two_upper : ((mkSensor 3 TEMPERATURE none).updateVal 2).upper = 0 := by
  rw [Sensor.updateVal, logAppend_upper]
  show ((round10 (max (pyMax (presentVals (List.replicate 3 none)) 1) (2 * 2)) : ℤ) : ℚ) = 0
  rw [presentVals_replicate_none]
  norm_num [pyMax, round10, pyRound]

/-! ## C5 -/

/-- C5 counterexample: recording the single decoded value 2.0 into a
fresh channel with autorange enabled leaves lower = upper = 0, refuting
the claimed strict invariant lower < upper after a write. -/
theorem C5_counterexample :
    ((mkSensor 3 TEMPERATURE none).updateVal 2).lower = 0 ∧
    ((mkSensor 3 TEMPERATURE none).updateVal 2).upper = 0 ∧
    ¬ ((mkSensor 3 TEMPERATURE none).updateVal 2).lower
        < ((mkSensor 3 TEMPERATURE none).updateVal 2).upper := by
  refine ⟨updateVal_two_lower, updateVal_two_upper, ?_⟩
  rw [updateVal_two_lower, updateVal_two_upper]
  exact lt_irrefl 0

/-- C5 (amended): with autorange enabled the bounds computed by a write
always satisfy lower ≤ upper (equality is reachable, so the strict
version fails); and after a single write v into an empty history,
lower ≤ round10(v/2) and round10(v*2) ≤ upper as the claim states. -/
theorem C5_autorange_bounds :
    (∀ (s : Sensor) (v : ℚ), s.autorange = true →
        (s.updateVal v).lower ≤ (s.updateVal v).upper) ∧
    (∀ (L uuid : ℕ) (v : ℚ),
        ((mkSensor L uuid none).updateVal v).lower ≤ ((round10 (v / 2) : ℤ) : ℚ) ∧
        ((round10 (v * 2) : ℤ) : ℚ) ≤ ((mkSensor L uuid none).updateVal v).upper) := by
  constructor
  · intro s v h
    rw [Sensor.updateVal, logAppend_lower, logAppend_upper,
      rangeAdjust_lower_auto s v h, rangeAdjust_upper_auto s v h]
    have hab : min (pyMin (presentVals s.dlog) 0) (v / 2)
        ≤ max (pyMax (presentVals s.dlog) 1) (v * 2) := by
      rcases le_or_lt 0 v with hv | hv
      · have h1 : min (pyMin (presentVals s.dlog) 0) (v / 2) ≤ v / 2 := min_le_right _ _
        have h2 : v / 2 ≤ v * 2 := by linarith
        have h3 : v * 2 ≤ max (pyMax (presentVals s.dlog) 1) (v * 2) := le_max_right _ _
        linarith
      · have h1 : min (pyMin (presentVals s.dlog) 0) (v / 2)
            ≤ pyMin (presentVals s.dlog) 0 := min_le_left _ _
        have h2 : pyMin (presentVals s.dlog) 0 ≤ pyMax (presentVals s.dlog) 1 :=
          pyMin_le_pyMax _
        have h3 : pyMax (presentVals s.dlog) 1
            ≤ max (pyMax (presentVals s.dlog) 1) (v * 2) := le_max_left _ _
        linarith
    exact_mod_cast round10_mono hab
  · intro L uuid v
    have hauto : (mkSensor L uuid none).autorange = true := rfl
    constructor
    · rw [Sensor.updateVal, logAppend_lower, rangeAdjust_lower_auto _ v hauto]
      have hp : presentVals (mkSensor L uuid none).dlog = [] :=
        presentVals_replicate_none L
      rw [hp]
      have : min (pyMin [] 0) (v / 2) ≤ v / 2 := min_le_right _ _
      exact_mod_cast round10_mono this
    · rw [Sensor.updateVal, logAppend_upper, rangeAdjust_upper_auto _ v hauto]
      have hp : presentVals (mkSensor L uuid none).dlog = [] :=
        presentVals_replicate_none L
      rw [hp]
      have : v * 2 ≤ max (pyMax [] 1) (v * 2) := le_max_right _ _
      exact_mod_cast round10_mono this

/-- C5 witness: the amended bound applied after one write with autorange
enabled. -/
theorem C5_autorange_bounds_witness :
    ((mkSensor 3 TEMPERATURE none).updateVal 7).lower
      ≤ ((mkSensor 3 TEMPERATURE none).updateVal 7).upper :=
  C5_autorange_bounds.1 (mkSensor 3 TEMPERATURE none) 7 rfl

/-! ## C10 -/

/-- C10: whenever `upper == lower`, `get_scaled` on any populated slot
raises an unguarded ZeroDivisionError; the state is reachable through the
public interface with autorange enabled: recording the single decoded
value 2.0 (temperature bytes `0xC8 0x00`) into a fresh channel drives
both bounds to 0. -/
theorem C10_scaled_zero_division :
    (∀ (s : Sensor) (i : ℕ) (scale v : ℚ), s.upper = s.lower →
        s.dlog[i]? = some (some v) →
        s.get_scaled i scale = .error "ZeroDivisionError") ∧
    (mkSensor 3 TEMPERATURE none).record [200, 0]
        = .ok ((mkSensor 3 TEMPERATURE none).updateVal 2) ∧
    ((mkSensor 3 TEMPERATURE none).updateVal 2).lower = 0 ∧
    ((mkSensor 3 TEMPERATURE none).updateVal 2).upper = 0 ∧
    ((mkSensor 3 TEMPERATURE none).updateVal 2).get_scaled 0 1
        = .error "ZeroDivisionError" := by
  have hz : ∀ (s : Sensor) (i : ℕ) (scale v : ℚ), s.upper = s.lower →
      s.dlog[i]? = some (some v) →
      s.get_scaled i scale = .error "ZeroDivisionError" := by
    intro s i scale v hb hv
    simp only [Sensor.get_scaled, hv, hb, sub_self, if_pos]
  have hd : decode_temperature [200, 0] = .ok 2 := by
    have hu : unpack_h [200, 0] = .ok 200 := by
      show Except.ok (if (200 + 256 * 0 : Nat) < 32768 then ((200 + 256 * 0 : Nat) : Int)
        else ((200 + 256 * 0 : Nat) : Int) - 65536) = .ok 200
      norm_num
    simp only [decode_temperature, hu, bind, Except.bind, pure, Except.pure]
    norm_num
  have hr : (mkSensor 3 TEMPERATURE none).record [200, 0]
      = .ok ((mkSensor 3 TEMPERATURE none).updateVal 2) := by
    simp only [Sensor.record, show DECODERS (mkSensor 3 TEMPERATURE none).uuid
        = some decode_temperature from rfl, Option.getD_some, hd, bind, Except.bind,
      pure, Except.pure]
  refine ⟨hz, hr, updateVal_two_lower, updateVal_two_upper, ?_⟩
  exact hz _ 0 1 2 (updateVal_two_upper.trans updateVal_two_lower.symm) rfl

/-- C10 witness: the universally quantified part applied to a concrete
collapsed-range state. -/
theorem C10_scaled_zero_division_witness :
    sampleFlat.get_scaled 0 7 = .error "ZeroDivisionError" :=
  C10_scaled_zero_division.1 sampleFlat 0 7 5 rfl rfl

/-! ## C8 -/

/-- C8: with `lower < upper`, a populated slot and a nonnegative scale,
`get_scaled` returns the stored value clamped into `[lower, upper]`,
normalised to `[0, 1]` and multiplied by `scale`; the result lies in
`[0, scale]` for every stored value (also one outside the range), and it
is monotone in the stored value. -/
theorem C8_scaled_bounded_monotone (s s2 : Sensor) (i : ℕ) (scale v v2 : ℚ)
    (hlu : s.lower < s.upper) (hv : s.dlog[i]? = some (some v)) (hs : 0 ≤ scale)
    (hl2 : s2.lower = s.lower) (hu2 : s2.upper = s.upper)
    (hv2 : s2.dlog[i]? = some (some v2)) (hvv : v ≤ v2) :
    ∃ r r2,
      s.get_scaled i scale = .ok r ∧ s2.get_scaled i scale = .ok r2 ∧
      r = (max s.lower (min s.upper v) - s.lower) / (s.upper - s.lower) * scale ∧
      0 ≤ r ∧ r ≤ scale ∧ r ≤ r2 := by
  have hw : (0 : ℚ) < s.upper - s.lower := sub_pos.mpr hlu
  have hd : s.upper - s.lower ≠ 0 := ne_of_gt hw
  have hgs : s.get_scaled i scale
      = .ok ((max s.lower (min s.upper v) - s.lower) / (s.upper - s.lower) * scale) := by
    simp only [Sensor.get_scaled, hv, if_neg hd]
  have hgs2 : s2.get_scaled i scale
      = .ok ((max s.lower (min s.upper v2) - s.lower) / (s.upper - s.lower) * scale) := by
    simp only [Sensor.get_scaled, hv2, hl2, hu2, if_neg hd]
  refine ⟨_, _, hgs, hgs2, rfl, ?_, ?_, ?_⟩
  · have hc0 : 0 ≤ max s.lower (min s.upper v) - s.lower :=
      sub_nonneg.mpr (le_max_left _ _)
    exact mul_nonneg (div_nonneg hc0 hw.le) hs
  · have hc1 : max s.lower (min s.upper v) - s.lower ≤ s.upper - s.lower :=
      sub_le_sub_right (max_le hlu.le (min_le_left _ _)) _
    have hq : (max s.lower (min s.upper v) - s.lower) / (s.upper - s.lower) ≤ 1 :=
      (div_le_one hw).mpr hc1
    calc (max s.lower (min s.upper v) - s.lower) / (s.upper - s.lower) * scale
        ≤ 1 * scale := mul_le_mul_of_nonneg_right hq hs
      _ = scale := one_mul scale
  · have hmin : min s.upper v ≤ min s.upper v2 := min_le_min le_rfl hvv
    have hmax : max s.lower (min s.upper v) ≤ max s.lower (min s.upper v2) :=
      max_le_max le_rfl hmin
    have hsub : max s.lower (min s.upper v) - s.lower
        ≤ max s.lower (min s.upper v2) - s.lower := sub_le_sub_right hmax _
    have hdiv : (max s.lower (min s.upper v) - s.lower) / (s.upper - s.lower)
        ≤ (max s.lower (min s.upper v2) - s.lower) / (s.upper - s.lower) :=
      (div_le_div_iff_of_pos_right hw).mpr hsub
    exact mul_le_mul_of_nonneg_right hdiv hs

/-- C8 witness: the theorem applied to two concrete populated states that
share the range [0, 10] and store 5 and 7. -/
theorem C8_scaled_bounded_monotone_witness :
    ∃ r r2,
      sampleA.get_scaled 0 2 = .ok r ∧ sampleB.get_scaled 0 2 = .ok r2 ∧
      r = (max sampleA.lower (min sampleA.upper 5) - sampleA.lower)
            / (sampleA.upper - sampleA.lower) * 2 ∧
      0 ≤ r ∧ r ≤ 2 ∧ r ≤ r2 :=
  C8_scaled_bounded_monotone sampleA sampleB 0 2 5 7 (by decide) rfl (by decide)
    rfl rfl rfl (by decide)

/-! ## C3 -/

theorem chanLoop_ok (ps : List (Sensor × CharOutcome))
    (h : ∀ p ∈ ps, chanOk p.1 p.2 = true) :
    chanLoop ps = (ps.map (fun p => chanStep p.1 p.2), .ret) := by
  induction ps with
  | nil => rfl
  | cons p t ih =>
    obtain ⟨s, o⟩ := p
    have hp : chanOk s o = true := h _ (List.mem_cons_self _ _)
    have ht : ∀ q ∈ t, chanOk q.1 q.2 = true := fun q hq => h q (List.mem_cons_of_mem _ hq)
    cases o with
    | resolveTimeout =>
      show (s :: (chanLoop t).1, (chanLoop t).2) = _
      rw [ih ht]
      rfl
    | readTimeout => simp [chanOk] at hp
    | readData d =>
      cases hrec : s.record d with
      | error e =>
        exfalso
        rw [chanOk, hrec] at hp
        exact Bool.false_ne_true hp
      | ok s2 =>
        have h1 : chanLoop ((s, CharOutcome.readData d) :: t)
            = (s2 :: (chanLoop t).1, (chanLoop t).2) := by
          simp [chanLoop, hrec]
        have h2 : chanStep s (.readData d) = s2 := by
          simp [chanStep, hrec]
        rw [h1, ih ht]
        simp [h2]

theorem chanLoop_abort (ps : List (Sensor × CharOutcome)) (s : Sensor)
    (rest : List (Sensor × CharOutcome)) (h : ∀ p ∈ ps, chanOk p.1 p.2 = true) :
    chanLoop (ps ++ (s, .readTimeout) :: rest) =
      (ps.map (fun p => chanStep p.1 p.2) ++ s :: rest.map Prod.fst,
       .exc "TimeoutError") := by
  induction ps with
  | nil => rfl
  | cons p t ih =>
    obtain ⟨s1, o⟩ := p
    have hp : chanOk s1 o = true := h _ (List.mem_cons_self _ _)
    have ht : ∀ q ∈ t, chanOk q.1 q.2 = true := fun q hq => h q (List.mem_cons_of_mem _ hq)
    cases o with
    | resolveTimeout =>
      show (s1 :: (chanLoop (t ++ (s, .readTimeout) :: rest)).1,
            (chanLoop (t ++ (s, .readTimeout) :: rest)).2) = _
      rw [ih ht]
      rfl
    | readTimeout => simp [chanOk] at hp
    | readData d =>
      cases hrec : s1.record d with
      | error e =>
        exfalso
        rw [chanOk, hrec] at hp
        exact Bool.false_ne_true hp
      | ok s2 =>
        have h1 : chanLoop ((s1, CharOutcome.readData d) :: (t ++ (s, .readTimeout) :: rest))
            = (s2 :: (chanLoop (t ++ (s, .readTimeout) :: rest)).1,
               (chanLoop (t ++ (s, .readTimeout) :: rest)).2) := by
          simp [chanLoop, hrec]
        have h2 : chanStep s1 (.readData d) = s2 := by
          simp [chanStep, hrec]
        rw [List.cons_append, h1, ih ht]
        simp [h2]

theorem chanLoop_abort_decode (ps : List (Sensor × CharOutcome)) (s : Sensor)
    (d : List (Fin 256)) (e : String) (rest : List (Sensor × CharOutcome))
    (h : ∀ p ∈ ps, chanOk p.1 p.2 = true) (hrec : s.record d = .error e) :
    chanLoop (ps ++ (s, .readData d) :: rest) =
      (ps.map (fun p => chanStep p.1 p.2) ++ s :: rest.map Prod.fst, .exc e) := by
  induction ps with
  | nil =>
    show chanLoop ((s, .readData d) :: rest) = _
    simp [chanLoop, hrec]
  | cons p t ih =>
    obtain ⟨s1, o⟩ := p
    have hp : chanOk s1 o = true := h _ (List.mem_cons_self _ _)
    have ht : ∀ q ∈ t, chanOk q.1 q.2 = true := fun q hq => h q (List.mem_cons_of_mem _ hq)
    cases o with
    | resolveTimeout =>
      show (s1 :: (chanLoop (t ++ (s, .readData d) :: rest)).1,
            (chanLoop (t ++ (s, .readData d) :: rest)).2) = _
      rw [ih ht]
      rfl
    | readTimeout => simp [chanOk] at hp
    | readData d1 =>
      cases hrec1 : s1.record d1 with
      | error e1 =>
        exfalso
        rw [chanOk, hrec1] at hp
        exact Bool.false_ne_true hp
      | ok s2 =>
        have h1 : chanLoop ((s1, CharOutcome.readData d1) :: (t ++ (s, .readData d) :: rest))
            = (s2 :: (chanLoop (t ++ (s, .readData d) :: rest)).1,
               (chanLoop (t ++ (s, .readData d) :: rest)).2) := by
          simp [chanLoop, hrec1]
        have h2 : chanStep s1 (.readData d1) = s2 := by
          simp [chanStep, hrec1]
        rw [List.cons_append, h1, ih ht]
        simp [h2]

/-- C3 counterexample: two configured channels, the second of which
would read and decode fine.  Scenario one: the first channel read times
out — the cycle ends with an uncaught TimeoutError and both buffers are
unchanged.  Scenario two: the first channel read returns a malformed
3-byte payload, so its decode fails — the cycle ends with an uncaught
struct.error and both buffers are again unchanged.  Both refute the
claim that a read timeout or a decode failure skips only the failing
channel. -/
theorem C3_counterexample :
    Device.update "enviro-indoor" (some 7)
        [mkSensor 2 TEMPERATURE (some (20, 40)), mkSensor 2 HUMIDITY (some (0, 100))]
        { scan := [], connectOk := true, serviceFound := true,
          chars := [.readTimeout, .readData [200, 0]] } =
      { sensors := [mkSensor 2 TEMPERATURE (some (20, 40)),
                    mkSensor 2 HUMIDITY (some (0, 100))],
        acquired := 1, released := 1, outcome := .exc "TimeoutError" } ∧
    Device.update "enviro-indoor" (some 7)
        [mkSensor 2 TEMPERATURE (some (20, 40)), mkSensor 2 HUMIDITY (some (0, 100))]
        { scan := [], connectOk := true, serviceFound := true,
          chars := [.readData [1, 2, 3], .readData [200, 0]] } =
      { sensors := [mkSensor 2 TEMPERATURE (some (20, 40)),
                    mkSensor 2 HUMIDITY (some (0, 100))],
        acquired := 1, released := 1, outcome := .exc "struct.error" } := by
  exact ⟨rfl, rfl⟩

/-- C3 (amended): a characteristic-resolution timeout is isolated — the
channel is skipped and every remaining channel is still resolved, read
and recorded in configured order — but a read timeout or a decode
failure is not: either propagates out of the loop, leaving its own and
every later channel buffer unchanged, while the scoped connection is
still released exactly once whenever the loop was entered. -/
theorem C3_resolve_timeout_isolated :
    (∀ (displayName : String) (handle : Nat) (ss : List Sensor) (os : List CharOutcome),
        (∀ p ∈ ss.zip os, chanOk p.1 p.2 = true) →
        Device.update displayName (some handle) ss
            { scan := [], connectOk := true, serviceFound := true, chars := os } =
          { sensors := (ss.zip os).map (fun p => chanStep p.1 p.2),
            acquired := 1, released := 1, outcome := .ret }) ∧
    (∀ (ps : List (Sensor × CharOutcome)) (s : Sensor)
        (rest : List (Sensor × CharOutcome)),
        (∀ p ∈ ps, chanOk p.1 p.2 = true) →
        chanLoop (ps ++ (s, .readTimeout) :: rest) =
          (ps.map (fun p => chanStep p.1 p.2) ++ s :: rest.map Prod.fst,
           .exc "TimeoutError")) ∧
    (∀ (ps : List (Sensor × CharOutcome)) (s : Sensor) (d : List (Fin 256))
        (e : String) (rest : List (Sensor × CharOutcome)),
        (∀ p ∈ ps, chanOk p.1 p.2 = true) → s.record d = .error e →
        chanLoop (ps ++ (s, .readData d) :: rest) =
          (ps.map (fun p => chanStep p.1 p.2) ++ s :: rest.map Prod.fst, .exc e)) ∧
    (∀ (displayName : String) (handle : Nat) (ss : List Sensor) (env : Env),
        env.connectOk = true → env.serviceFound = true →
        (Device.update displayName (some handle) ss env).acquired = 1 ∧
        (Device.update displayName (some handle) ss env).released = 1) := by
  refine ⟨?_, chanLoop_abort, chanLoop_abort_decode, ?_⟩
  · intro displayName handle ss os h
    show (let r := chanLoop (ss.zip os)
          { sensors := r.1, acquired := 1, released := 1, outcome := r.2 } : UpdResult) = _
    rw [chanLoop_ok (ss.zip os) h]
  · intro displayName handle ss env h1 h2
    constructor <;> simp [Device.update, Device.find, h1, h2]

/-- C3 witness: the isolation part applied to one channel whose
characteristic resolution times out. -/
theorem C3_resolve_timeout_isolated_witness :
    Device.update "enviro-indoor" (some 7) [mkSensor 2 TEMPERATURE (some (20, 40))]
        { scan := [], connectOk := true, serviceFound := true,
          chars := [.resolveTimeout] } =
      { sensors := (([mkSensor 2 TEMPERATURE (some (20, 40))].zip
            [CharOutcome.resolveTimeout]).map (fun p => chanStep p.1 p.2)),
        acquired := 1, released := 1, outcome := .ret } :=
  C3_resolve_timeout_isolated.1 "enviro-indoor" 7 _ _ (by decide)

/-! ## C1 invariant -/

theorem foldl_updateVal_spec (L uuid : Nat) (dr : Option (ℚ × ℚ)) (hL : 0 < L)
    (vs : List ℚ) :
    (vs.foldl Sensor.updateVal (mkSensor L uuid dr)).length0 = L ∧
    (vs.foldl Sensor.updateVal (mkSensor L uuid dr)).dptr = min vs.length (L - 1) ∧
    (vs.foldl Sensor.updateVal (mkSensor L uuid dr)).dlog = logAfter L vs := by
  induction vs using List.reverseRecOn with
  | nil =>
    refine ⟨?_, ?_, ?_⟩
    · rcases dr with _ | ⟨lo, hi⟩ <;> rfl
    · rcases dr with _ | ⟨lo, hi⟩ <;> simp [mkSensor]
    · rcases dr with _ | ⟨lo, hi⟩ <;> simp [mkSensor, logAfter, hL]
  | append_singleton vs w ih =>
    obtain ⟨h0, hp, hd⟩ := ih
    rw [List.foldl_append, List.foldl_cons, List.foldl_nil]
    set st := vs.foldl Sensor.updateVal (mkSensor L uuid dr) with hst
    rw [Sensor.updateVal]
    have hra0 : (st.rangeAdjust w).length0 = L := by rw [rangeAdjust_length0, h0]
    have hrap : (st.rangeAdjust w).dptr = min vs.length (L - 1) := by
      rw [rangeAdjust_dptr, hp]
    have hrad : (st.rangeAdjust w).dlog = logAfter L vs := by
      rw [rangeAdjust_dlog, hd]
    rcases Nat.lt_or_ge (vs.length + 1) L with hcase | hcase
    · -- the buffer is still filling: no shift on this write
      have hne : ¬ (st.rangeAdjust w).dptr = (st.rangeAdjust w).length0 - 1 := by
        rw [hrap, hra0]
        omega
      have hmin : min vs.length (L - 1) = vs.length := by omega
      refine ⟨?_, ?_, ?_⟩
      · rw [logAppend_length0, hra0]
      · rw [logAppend_dptr_ne _ _ hne, hrap]
        simp only [List.length_append, List.length_cons, List.length_nil]
        omega
      · rw [logAppend_dlog_ne _ _ hne, hrad, hrap, hmin]
        have hnlt : vs.length < L := by omega
        simp only [logAfter]
        rw [if_pos hnlt, if_pos (show (vs ++ [w]).length < L by
          simp only [List.length_append, List.length_cons, List.length_nil]
          omega)]
        have hset : (vs.map some ++ List.replicate (L - vs.length) none).set
              vs.length (some w)
            = vs.map some ++ (List.replicate (L - vs.length) none).set 0 (some w) := by
          have h1 := set_append_len (vs.map some)
            (List.replicate (L - vs.length) (none : Option ℚ)) (some w)
          rwa [List.length_map] at h1
        rw [hset]
        have hrep : (List.replicate (L - vs.length) (none : Option ℚ)).set 0 (some w)
            = some w :: List.replicate (L - vs.length - 1) none := by
          have hpos : L - vs.length = (L - vs.length - 1) + 1 := by omega
          rw [hpos, List.replicate_succ]
          rfl
        rw [hrep]
        have harith : L - vs.length - 1 = L - (vs ++ [w]).length := by
          simp only [List.length_append, List.length_cons, List.length_nil]
          omega
        rw [harith, List.map_append]
        simp
    · -- the write that fills the buffer, or a later one: shift happens
      have hsh : (st.rangeAdjust w).dptr = (st.rangeAdjust w).length0 - 1 := by
        rw [hrap, hra0]
        omega
      have hidx : min vs.length (L - 1) = L - 1 := by omega
      refine ⟨?_, ?_, ?_⟩
      · rw [logAppend_length0, hra0]
      · rw [logAppend_dptr_eq _ _ hsh, hrap]
        simp only [List.length_append, List.length_cons, List.length_nil]
        omega
      · rw [logAppend_dlog_eq _ _ hsh, hrad, hrap, hidx]
        rcases Nat.lt_or_ge vs.length L with hb1 | hb2
        · -- exactly the L-th write: vs.length = L - 1
          have hone : L - vs.length = 1 := by omega
          have hlog : logAfter L vs = vs.map some ++ [none] := by
            simp only [logAfter]
            rw [if_pos hb1, hone]
            rfl
          have hvl : L - 1 = vs.length := by omega
          have hset : (logAfter L vs).set (L - 1) (some w) = (vs ++ [w]).map some := by
            rw [hlog, hvl]
            have h1 := set_append_len (vs.map some) [(none : Option ℚ)] (some w)
            rw [List.length_map] at h1
            rw [h1]
            simp
          rw [hset, shiftLeft_map_some]
          simp only [logAfter, List.length_append, List.length_cons, List.length_nil]
          rw [if_neg (by omega)]
          have e1 : vs.length + 1 - L + 1 = 1 := by omega
          have e2 : vs.length + 1 - 1 = vs.length := by omega
          rw [e1, e2]
        · -- a write after the buffer is already full
          have hDlen : (vs.drop (vs.length - L + 1)).length = L - 1 := by
            rw [List.length_drop]
            omega
          have hlog : logAfter L vs
              = (vs.drop (vs.length - L + 1)).map some
                  ++ (vs.drop (vs.length - 1)).map some := by
            simp only [logAfter]
            rw [if_neg (by omega), List.map_append]
          have hlenB : ((vs.drop (vs.length - 1)).map some).length = 1 := by
            rw [List.length_map, List.length_drop]
            omega
          have hset : (logAfter L vs).set (L - 1) (some w)
              = ((vs.drop (vs.length - L + 1)) ++ [w]).map some := by
            rw [hlog]
            have h1 := set_append_len ((vs.drop (vs.length - L + 1)).map some)
              ((vs.drop (vs.length - 1)).map some) (some w)
            rw [List.length_map, List.length_drop] at h1
            have e0 : L - 1 = vs.length - (vs.length - L + 1) := by omega
            rw [e0, h1, set_zero_len_one _ _ hlenB]
            simp
          rw [hset, shiftLeft_map_some]
          have hulen : ((vs.drop (vs.length - L + 1)) ++ [w]).length = L := by
            rw [List.length_append, hDlen]
            simp only [List.length_cons, List.length_nil]
            omega
          rw [hulen]
          have hd1 : ((vs.drop (vs.length - L + 1)) ++ [w]).drop 1
              = (vs ++ [w]).drop (vs.length - L + 2) := by
            rw [List.drop_append_eq_append_drop, List.drop_append_eq_append_drop,
              List.drop_drop, hDlen]
            have e1 : vs.length - L + 1 + 1 = vs.length - L + 2 := by omega
            have e2 : (1 : Nat) - (L - 1) = vs.length - L + 2 - vs.length := by omega
            rw [e1, e2]
          have hd2 : ((vs.drop (vs.length - L + 1)) ++ [w]).drop (L - 1)
              = (vs ++ [w]).drop vs.length := by
            have h1 : ((vs.drop (vs.length - L + 1)) ++ [w]).drop (L - 1) = [w] := by
              rw [show L - 1 = (vs.drop (vs.length - L + 1)).length from hDlen.symm,
                drop_concat_len]
            have h2 : (vs ++ [w]).drop vs.length = [w] := drop_concat_len vs w
            rw [h1, h2]
          rw [hd1, hd2]
          simp only [logAfter, List.length_append, List.length_cons, List.length_nil]
          rw [if_neg (by omega)]
          have e3 : vs.length + 1 - L + 1 = vs.length - L + 2 := by omega
          have e4 : vs.length + 1 - 1 = vs.length := by omega
          rw [e3, e4]

/-- C1 (amended): for every positive capacity and every write sequence,
while fewer than capacity values have been written `current_length`
equals the number of writes and the log holds exactly the written values
oldest-first; from the capacity-th write on `current_length` equals the
capacity, but the log holds only the most recent capacity - 1 values in
chronological order followed by a duplicate of the newest value — the
write that fills the buffer already evicts the oldest value, and each
further write drops the oldest of the retained values. -/
theorem C1_buffer_evolution (L uuid : Nat) (dr : Option (ℚ × ℚ)) (vs : List ℚ)
    (hL : 0 < L) :
    (vs.length < L →
        (vs.foldl Sensor.updateVal (mkSensor L uuid dr)).dlog
            = vs.map some ++ List.replicate (L - vs.length) none ∧
        (vs.foldl Sensor.updateVal (mkSensor L uuid dr)).current_length = vs.length) ∧
    (L ≤ vs.length →
        (vs.foldl Sensor.updateVal (mkSensor L uuid dr)).current_length = L ∧
        (vs.foldl Sensor.updateVal (mkSensor L uuid dr)).dlog
            = ((vs.drop (vs.length - L + 1)) ++ vs.drop (vs.length - 1)).map some) := by
  obtain ⟨h0, hp, hd⟩ := foldl_updateVal_spec L uuid dr hL vs
  constructor
  · intro hlt
    have hdl : (vs.foldl Sensor.updateVal (mkSensor L uuid dr)).dlog
        = vs.map some ++ List.replicate (L - vs.length) none := by
      rw [hd]
      simp only [logAfter]
      rw [if_pos hlt]
    refine ⟨hdl, ?_⟩
    have hrep : List.replicate (L - vs.length) (none : Option ℚ)
        = none :: List.replicate (L - vs.length - 1) none := by
      have hpos : L - vs.length = (L - vs.length - 1) + 1 := by omega
      rw [hpos, List.replicate_succ]
      simp
    unfold Sensor.current_length
    rw [hdl, hrep, firstNoneIdx_append_none]
  · intro hle
    have hdl : (vs.foldl Sensor.updateVal (mkSensor L uuid dr)).dlog
        = ((vs.drop (vs.length - L + 1)) ++ vs.drop (vs.length - 1)).map some := by
      rw [hd]
      simp only [logAfter]
      rw [if_neg (by omega)]
    refine ⟨?_, hdl⟩
    unfold Sensor.current_length
    rw [hdl, firstNoneIdx_map_some, h0]

/-- C1 witness: the full-buffer clause applied to capacity 2 and the
writes 1, 2, 3. -/
theorem C1_buffer_evolution_witness :
    (([1, 2, 3] : List ℚ).foldl Sensor.updateVal
        (mkSensor 2 HUMIDITY (some (0, 100)))).current_length = 2 ∧
    (([1, 2, 3] : List ℚ).foldl Sensor.updateVal
        (mkSensor 2 HUMIDITY (some (0, 100)))).dlog
        = ((([1, 2, 3] : List ℚ).drop (3 - 2 + 1))
            ++ ([1, 2, 3] : List ℚ).drop (3 - 1)).map some :=
  (C1_buffer_evolution 2 HUMIDITY (some (0, 100)) [1, 2, 3] (by decide)).2 (by decide)

end Blezero
